import Mathlib

/-!
Shallow embedding of the rcan-api order/payment workflow.

The embedding models the MongoDB collections as association lists inside a
`DBState`, JavaScript numbers as rationals, and a MongoDB session transaction
as an explicit list of pending writes: a handler that aborts returns the
initial state unchanged, a handler that commits returns the state with all
pending writes applied.  The three handlers modelled are
`createOrder` and `updateOrderStatus` from
`src/controllers/orderController.js` and `verifyRazorpayWebhook` from
`src/controllers/paymentController.js` (both revisions of that file contain
the same reconciliation logic; only the raw-body plumbing differs, which is
abstracted here as the precomputed HMAC digest carried by the request).
-/

/-- Date-like values.  `millis t` abstracts a JavaScript `Date` built from a
millisecond timestamp (`Date.now()` or `new Date(created_at * 1000)`);
`parsed s` abstracts `new Date(update_time)` for a caller-supplied string. -/
inductive TimeVal where
  | millis (t : ℤ)
  | parsed (s : String)
  deriving DecidableEq

/-- Abstraction of `Date#toISOString`, injective on the abstract dates. -/
def isoString : TimeVal → String
  | .millis t => "iso:" ++ toString t
  | .parsed s => "iso:" ++ s

/-- Catalog product document (`ProductModel`): the fields read by the order
workflow. -/
structure Product where
  name : String
  price : ℚ
  stockQuantity : ℤ
  isActive : Bool
  images : List String
  deriving DecidableEq

/-- One cart line (`CartModel` item): product reference and quantity. -/
structure CartItem where
  product : Nat
  quantity : ℤ
  deriving DecidableEq

/-- One order line (`OrderModel` item sub-document). -/
structure OrderItem where
  product : Nat
  name : String
  image : Option String
  price : ℚ
  quantity : ℤ
  deriving DecidableEq

/-- The `paymentResult` sub-document of an order; every field is optional. -/
structure PaymentRec where
  id : Option String
  status : Option String
  update_time : Option String
  email_address : Option String
  deriving DecidableEq

/-- A fresh `paymentResult` sub-document with no fields set. -/
def emptyPaymentRec : PaymentRec := ⟨none, none, none, none⟩

/-- An order document (`OrderModel`).  `orderStatus` is kept as a string, as
in the source; the schema enum is enforced at save time. -/
structure Order where
  id : Nat
  user : Nat
  items : List OrderItem
  paymentMethod : String
  paymentResult : PaymentRec
  razorpayOrderId : Option String
  itemsPrice : ℚ
  taxPrice : ℚ
  shippingPrice : ℚ
  totalPrice : ℚ
  orderStatus : String
  isPaid : Bool
  paidAt : Option TimeVal
  deliveredAt : Option TimeVal
  deriving DecidableEq

/-- The database: products and carts keyed by id, plus the order collection. -/
structure DBState where
  products : List (Nat × Product)
  carts : List (Nat × List CartItem)
  orders : List Order
  deriving DecidableEq

/-- A single session-scoped write: `Order.create`, a `$inc` on a product's
`stockQuantity` (`findByIdAndUpdate`), or `Cart.findOneAndDelete`. -/
inductive DBWrite where
  | createDoc (o : Order)
  | incStock (pid : Nat) (delta : ℤ)
  | deleteCart (uid : Nat)
  deriving DecidableEq

/-- Apply one write to the database. -/
def applyWrite (st : DBState) : DBWrite → DBState
  | .createDoc o => { st with orders := st.orders ++ [o] }
  | .incStock pid delta =>
      { st with products := st.products.map (fun kp =>
          if kp.1 == pid then (kp.1, { kp.2 with stockQuantity := kp.2.stockQuantity + delta })
          else kp) }
  | .deleteCart uid => { st with carts := st.carts.filter (fun c => !(c.1 == uid)) }

/-- Commit a list of pending session writes, in order. -/
def applyWrites (st : DBState) (ws : List DBWrite) : DBState := ws.foldl applyWrite st

/-- Model of `Product.findById`. -/
def findProduct (st : DBState) (pid : Nat) : Option Product :=
  (st.products.find? (fun kp => kp.1 == pid)).map (·.2)

/-- Model of `Cart.findOne({ user })`, returning the cart's items. -/
def findCart (st : DBState) (uid : Nat) : Option (List CartItem) :=
  (st.carts.find? (fun c => c.1 == uid)).map (·.2)

/-- Model of `Order.findById`. -/
def findOrder (st : DBState) (oid : Nat) : Option Order :=
  st.orders.find? (fun o => o.id == oid)

/-- The `razorpayOrderId` equality filter of `Order.findOne`. -/
def rzpMatches (gid : String) (o : Order) : Bool :=
  match o.razorpayOrderId with
  | some g => g == gid
  | none => false

/-- Model of `Order.findOne({ razorpayOrderId })`. -/
def findByRzpOrderId (st : DBState) (gid : String) : Option Order :=
  st.orders.find? (rzpMatches gid)

/-- Replace the first order with a matching `_id` (the semantics of saving a
document fetched by id, `_id` being unique). -/
def replaceById : List Order → Order → List Order
  | [], _ => []
  | x :: xs, o => if x.id == o.id then o :: xs else x :: replaceById xs o

/-- Model of `order.save()` after a successful validation. -/
def saveOrder (st : DBState) (o : Order) : DBState :=
  { st with orders := replaceById st.orders o }

/-- JavaScript `Math.round`: round half towards positive infinity. -/
def jsRound (q : ℚ) : ℤ := Int.floor (q + 1/2)

/-- Model of `Number(x.toFixed(2))`: the amount rounded to two decimal places (the
source stores every money field through `toFixed(2)`). -/
def toFixed2 (q : ℚ) : ℚ := (jsRound (q * 100) : ℚ) / 100

/-- Model of `parseFloat(input) || 0`: an absent or non-numeric input (where
`parseFloat` yields `NaN`) is coerced to `0`; a numeric input is kept
(`0 || 0` is still `0`). -/
def jsOrZero : Option ℚ → ℚ
  | none => 0
  | some q => q

/-- JavaScript truthiness of an optional string (`undefined` and `""` are
falsy). -/
def truthyStr : Option String → Bool
  | none => false
  | some s => !(s == "")

/-- Model of `String#toLowerCase`, written over the character list so that it
evaluates by computation. -/
def jsToLower (s : String) : String := String.mk (s.data.map Char.toLower)

/-- The body of a `POST /orders` request, as destructured by `createOrder`.
`taxPriceInput`/`shippingPriceInput` are `none` when the field is absent or
`parseFloat` on it yields `NaN`. -/
structure CreateReq where
  userId : Nat
  shippingAddress : Option String
  paymentMethod : Option String
  taxPriceInput : Option ℚ
  shippingPriceInput : Option ℚ
  deriving DecidableEq

/-- The failure modes of `createOrder`, one per early-return branch. -/
inductive CreateError where
  | missingFields
  | emptyCart
  | productNotFound (pid : Nat)
  | productUnavailable (name : String)
  | insufficientStock (name : String) (stock requested : ℤ)
  | invalidAmount
  | gatewayFailure
  | missingGatewayId
  deriving DecidableEq

/-- The HTTP status attached to each `createOrder` failure branch. -/
def CreateError.httpStatus : CreateError → Nat
  | .productNotFound _ => 404
  | .gatewayFailure => 500
  | .missingGatewayId => 500
  | _ => 400

/-- The errors produced by the per-cart-line checks of the creation loop. -/
def CreateError.isItemError : CreateError → Bool
  | .productNotFound _ => true
  | .productUnavailable _ => true
  | .insufficientStock _ _ _ => true
  | _ => false

/-- The gateway correlation data returned to the frontend for online orders. -/
structure PayDetails where
  razorpayOrderId : String
  amountPaise : ℤ
  deriving DecidableEq

/-- Outcome of `createOrder`: the created order plus optional gateway data,
or a typed failure. -/
inductive CreateResp where
  | ok (order : Order) (payDetails : Option PayDetails)
  | err (e : CreateError)
  deriving DecidableEq

/-- The per-item loop of `createOrder`: re-read each product fresh, check
existence / `isActive` / stock, build the order line from the fresh catalog
data, accumulate `itemsPrice`, and queue the `$inc` stock decrement. -/
def processItems (st : DBState) : List CartItem → Except CreateError (List OrderItem × ℚ × List DBWrite)
  | [] => .ok ([], 0, [])
  | ci :: rest =>
    match findProduct st ci.product with
    | none => .error (.productNotFound ci.product)
    | some p =>
      if !p.isActive then .error (.productUnavailable p.name)
      else if p.stockQuantity < ci.quantity then
        .error (.insufficientStock p.name p.stockQuantity ci.quantity)
      else
        match processItems st rest with
        | .error e => .error e
        | .ok (ois, ip, ws) =>
          .ok ({ product := ci.product, name := p.name, image := p.images.head?,
                 price := p.price, quantity := ci.quantity } :: ois,
               p.price * (ci.quantity : ℚ) + ip,
               DBWrite.incStock ci.product (-ci.quantity) :: ws)

/-- The error raised by the first offending cart line, if any (the loop
returns on the first failing check). -/
def firstLineError (st : DBState) : List CartItem → Option CreateError
  | [] => none
  | ci :: rest =>
    match findProduct st ci.product with
    | none => some (.productNotFound ci.product)
    | some p =>
      if !p.isActive then some (.productUnavailable p.name)
      else if p.stockQuantity < ci.quantity then
        some (.insufficientStock p.name p.stockQuantity ci.quantity)
      else firstLineError st rest

/-- A cart line whose product is missing, inactive, or short of stock. -/
def lineBad (st : DBState) (ci : CartItem) : Bool :=
  match findProduct st ci.product with
  | none => true
  | some p => !p.isActive || p.stockQuantity < ci.quantity

/-- The `internalOrderData` document assembled by `createOrder` before the
gateway branch: money fields stored through `toFixed(2)`, `isPaid = false`,
and `orderStatus` chosen by `paymentMethod.toLowerCase() === 'cod'`. -/
def baseOrder (req : CreateReq) (nid : Nat) (ois : List OrderItem) (ip : ℚ) : Order :=
  { id := nid, user := req.userId, items := ois,
    paymentMethod := req.paymentMethod.getD "",
    paymentResult := emptyPaymentRec, razorpayOrderId := none,
    itemsPrice := toFixed2 ip,
    taxPrice := toFixed2 (jsOrZero req.taxPriceInput),
    shippingPrice := toFixed2 (jsOrZero req.shippingPriceInput),
    totalPrice := toFixed2 (ip + jsOrZero req.taxPriceInput + jsOrZero req.shippingPriceInput),
    orderStatus := if jsToLower (req.paymentMethod.getD "") == "cod" then "Processing" else "Pending Payment",
    isPaid := false, paidAt := none, deliveredAt := none }

/-- Holds when `paymentMethod.toLowerCase()` is `razorpay` or `online`: the
request is routed through the payment gateway. -/
def onlineMethod (req : CreateReq) : Bool :=
  jsToLower (req.paymentMethod.getD "") == "razorpay"
    || jsToLower (req.paymentMethod.getD "") == "online"

/-- Model of `createOrder` (`orderController.js`).  `gw` is the outcome of the external
`razorpay.orders.create` call: `none` when the call throws, `some gid` when it
returns an order with id `gid`.  `nid` is the fresh id given to the new order
document.  Every failure branch aborts the transaction, so it returns the
initial state; the success branch commits the pending writes. -/
def createOrder (st : DBState) (req : CreateReq) (gw : Option String) (nid : Nat) :
    DBState × CreateResp :=
  if !(truthyStr req.shippingAddress && truthyStr req.paymentMethod) then
    (st, .err .missingFields)
  else
    match findCart st req.userId with
    | none => (st, .err .emptyCart)
    | some items =>
      if items.isEmpty then (st, .err .emptyCart)
      else
        match processItems st items with
        | .error e => (st, .err e)
        | .ok (ois, ip, stockWrites) =>
          if onlineMethod req then
            if jsRound ((ip + jsOrZero req.taxPriceInput + jsOrZero req.shippingPriceInput) * 100) ≤ 0 then
              (st, .err .invalidAmount)
            else
              match gw with
              | none => (st, .err .gatewayFailure)
              | some gid =>
                if gid == "" then (st, .err .missingGatewayId)
                else
                  (applyWrites st
                     (DBWrite.createDoc { baseOrder req nid ois ip with razorpayOrderId := some gid }
                       :: stockWrites ++ [DBWrite.deleteCart req.userId]),
                   .ok { baseOrder req nid ois ip with razorpayOrderId := some gid }
                      (some { razorpayOrderId := gid,
                              amountPaise := jsRound ((ip + jsOrZero req.taxPriceInput
                                + jsOrZero req.shippingPriceInput) * 100) }))
          else
            (applyWrites st
               (DBWrite.createDoc (baseOrder req nid ois ip) :: stockWrites ++ [DBWrite.deleteCart req.userId]),
             .ok (baseOrder req nid ois ip) none)

/-- A payment entity from the webhook payload. -/
structure PaymentEntity where
  id : String
  status : String
  created_at : Option ℤ
  email : String
  deriving DecidableEq

/-- A webhook request after body parsing.  `digest` abstracts the HMAC-SHA256
of the raw body under the configured secret (computed by external crypto);
the handler compares it to the `x-razorpay-signature` header. -/
structure WebhookReq where
  signature : String
  digest : String
  event : String
  paymentEntity : PaymentEntity
  orderEntityId : String
  deriving DecidableEq

/-- The response branches of the webhook handler. -/
inductive WebhookResp where
  | misconfigured
  | sigMismatch
  | ackNotFound
  | ackAlreadyPaid
  | ackProcessed
  | ackOther
  deriving DecidableEq

/-- HTTP status of each webhook response branch. -/
def WebhookResp.httpStatus : WebhookResp → Nat
  | .misconfigured => 500
  | .sigMismatch => 400
  | _ => 200

/-- Model of `paymentEntity.created_at ? new Date(created_at * 1000) : new Date()`
(`0` is falsy in JavaScript). -/
def eventTime (created_at : Option ℤ) (now : ℤ) : TimeVal :=
  match created_at with
  | some t => if t = 0 then .millis now else .millis (t * 1000)
  | none => .millis now

/-- The mutation the webhook applies to an unpaid matched order: mark paid
with the event timestamp, set status `Processing` (unconditionally, as in the
source), and store the gateway payment id / status / payer email. -/
def webhookPaidOrder (o : Order) (pe : PaymentEntity) (now : ℤ) : Order :=
  { o with isPaid := true,
           paidAt := some (eventTime pe.created_at now),
           orderStatus := "Processing",
           paymentResult := { id := some pe.id,
                              status := some pe.status,
                              update_time := some (isoString (eventTime pe.created_at now)),
                              email_address := some pe.email } }

/-- Model of `verifyRazorpayWebhook` (`paymentController.js`): signature check, then
reconciliation of `order.paid` / `payment.captured` events against the local
order found by `razorpayOrderId`, inside its own transaction. -/
def verifyRazorpayWebhook (st : DBState) (secretConfigured : Bool) (req : WebhookReq) (now : ℤ) :
    DBState × WebhookResp :=
  if !secretConfigured then (st, .misconfigured)
  else if !(req.digest == req.signature) then (st, .sigMismatch)
  else if req.event == "order.paid" || req.event == "payment.captured" then
    match findByRzpOrderId st req.orderEntityId with
    | none => (st, .ackNotFound)
    | some o =>
      if o.isPaid then (st, .ackAlreadyPaid)
      else (saveOrder st (webhookPaidOrder o req.paymentEntity now), .ackProcessed)
  else (st, .ackOther)

/-- A `paymentResult` patch supplied to the admin status-update endpoint. -/
structure PRPatch where
  id : Option String
  status : Option String
  update_time : Option String
  email_address : Option String
  deriving DecidableEq

/-- The body of a `PUT /orders/:id/status` request. -/
structure UpdateReq where
  orderStatus : Option String
  isPaid : Option Bool
  paymentResult : Option PRPatch
  deriving DecidableEq

/-- Responses of `updateOrderStatus`. -/
inductive UpdateResp where
  | ok (order : Order)
  | notFound
  | serverError
  deriving DecidableEq

/-- HTTP status of each `updateOrderStatus` response branch. -/
def UpdateResp.httpStatus : UpdateResp → Nat
  | .ok _ => 200
  | .notFound => 404
  | .serverError => 500

/-- JavaScript spread merge `{...order.paymentResult, ...patch}`. -/
def mergePR (old : PaymentRec) (patch : PRPatch) : PaymentRec :=
  { id := patch.id <|> old.id,
    status := patch.status <|> old.status,
    update_time := patch.update_time <|> old.update_time,
    email_address := patch.email_address <|> old.email_address }

/-- Model of `['succeeded','completed','captured','paid'].includes(status?.toLowerCase())`. -/
def successStatusVal : Option String → Bool
  | some s => ["succeeded", "completed", "captured", "paid"].contains (jsToLower s)
  | none => false

/-- The stock-restore writes queued when transitioning into `Cancelled` from
an eligible previous status. -/
def cancelRestores (o : Order) (req : UpdateReq) : List DBWrite :=
  match req.orderStatus with
  | none => []
  | some ns =>
    if ns == "" then []
    else if ns == "Cancelled"
        && ["Pending Payment", "Pending", "Processing", "Paid"].contains o.orderStatus
        && !(o.orderStatus == "Cancelled") then
      o.items.map (fun it => DBWrite.incStock it.product it.quantity)
    else []

/-- The `if (orderStatus === 'Delivered' && !order.deliveredAt)` stamp. -/
def applyStatusDelivered (ns : String) (a : Order) (now : ℤ) : Order :=
  if ns == "Delivered" && a.deliveredAt.isNone then
    { a with deliveredAt := some (.millis now) } else a

/-- The `if (orderStatus === 'Paid' && !order.isPaid)` manual-paid stamp. -/
def applyStatusPaid (ns : String) (b : Order) (now : ℤ) : Order :=
  if ns == "Paid" && !b.isPaid then
    { b with isPaid := true, paidAt := some (.millis now) } else b

/-- The `if (orderStatus)` branch of `updateOrderStatus`: assign the
requested status, then the delivered / manually-paid stamps. -/
def applyStatusField (o : Order) (req : UpdateReq) (now : ℤ) : Order :=
  match req.orderStatus with
  | none => o
  | some ns =>
    if ns == "" then o
    else applyStatusPaid ns (applyStatusDelivered ns { o with orderStatus := ns } now) now

/-- The `if (isPaid !== undefined)` branch of `updateOrderStatus`. -/
def applyIsPaidField (o : Order) (req : UpdateReq) (now : ℤ) : Order :=
  match req.isPaid with
  | none => o
  | some p =>
    if p && o.paidAt.isNone then { o with isPaid := p, paidAt := some (.millis now) }
    else if !p then { o with isPaid := p, paidAt := none }
    else { o with isPaid := p }

/-- Model of `paymentResult.update_time ? new Date(update_time) : Date.now()` (the
empty string is falsy). -/
def prPaidAt (patch : PRPatch) (now : ℤ) : TimeVal :=
  match patch.update_time with
  | some s => if s == "" then .millis now else .parsed s
  | none => .millis now

/-- The `if (paymentResult)` branch of `updateOrderStatus`: merge the patch
and, on a recognized success status of an unpaid order, mark paid and advance
an unpaid-initial status to `Processing`. -/
def applyPaymentResultField (o : Order) (req : UpdateReq) (now : ℤ) : Order :=
  match req.paymentResult with
  | none => o
  | some patch =>
    if successStatusVal patch.status && !o.isPaid then
      if o.orderStatus == "Pending Payment" || o.orderStatus == "Pending" then
        { o with paymentResult := mergePR o.paymentResult patch, isPaid := true,
                 paidAt := some (prPaidAt patch now), orderStatus := "Processing" }
      else
        { o with paymentResult := mergePR o.paymentResult patch, isPaid := true,
                 paidAt := some (prPaidAt patch now) }
    else { o with paymentResult := mergePR o.paymentResult patch }

/-- The invariant re-check after all mutations: a paid order must not stay in
an unpaid-initial status. -/
def autoCorrect (o : Order) : Order :=
  if o.isPaid && (o.orderStatus == "Pending Payment" || o.orderStatus == "Pending") then
    { o with orderStatus := "Processing" }
  else o

/-- The full mutation applied by `updateOrderStatus` to the fetched order. -/
def mutateOrder (o : Order) (req : UpdateReq) (now : ℤ) : Order :=
  autoCorrect (applyPaymentResultField (applyIsPaidField (applyStatusField o req now) req now) req now)

/-- The `orderStatus` enum of the order schema; `order.save()` rejects the
document when the (modified) status is not in this list. -/
def validStatuses : List String :=
  ["Pending Payment", "Pending", "Processing", "Shipped", "Delivered", "Cancelled", "Failed"]

/-- Model of `updateOrderStatus` (`orderController.js`): fetch the order, queue the
cancellation stock restores, apply the three request-field mutations and the
final invariant re-check, then save inside the transaction (a schema
validation failure on save aborts the whole transaction). -/
def updateOrderStatus (st : DBState) (oid : Nat) (req : UpdateReq) (now : ℤ) :
    DBState × UpdateResp :=
  match findOrder st oid with
  | none => (st, .notFound)
  | some o0 =>
    if validStatuses.contains (mutateOrder o0 req now).orderStatus then
      (saveOrder (applyWrites st (cancelRestores o0 req)) (mutateOrder o0 req now),
       .ok (mutateOrder o0 req now))
    else (st, .serverError)

/-- An unpaid-initial order status. -/
def unpaidInitial (s : String) : Bool := s == "Pending Payment" || s == "Pending"

/-- The paid-order invariant: `isPaid` implies `paidAt` set and status not
unpaid-initial. -/
def orderInv (o : Order) : Bool :=
  !o.isPaid || (o.paidAt.isSome && !unpaidInitial o.orderStatus)

/-- The `paidAt` half of the paid-order invariant. -/
def paidAtInv (o : Order) : Bool := !o.isPaid || o.paidAt.isSome

/-- The paid-order invariant over the whole order collection. -/
def stateInv (st : DBState) : Bool := st.orders.all orderInv

/-- Well-formedness of the order collection: `_id` is unique. -/
abbrev ordersWF (st : DBState) : Prop := (st.orders.map (·.id)).Nodup

/-- Total quantity that the lines of `items` hold against product `pid`. -/
def linesQty (items : List OrderItem) (pid : Nat) : ℤ :=
  ((items.filter (fun it => it.product == pid)).map (·.quantity)).sum

/-- An amount that is an integer number of hundredths (two decimal places). -/
def Centi (q : ℚ) : Prop := ∃ n : ℤ, q = (n : ℚ) / 100

/-! ### Helper lemmas -/

theorem firstLineError_isSome_of_bad {st : DBState} {items : List CartItem}
    (h : ∃ ci ∈ items, lineBad st ci = true) :
    ∃ e, firstLineError st items = some e ∧ e.isItemError = true := by
  induction items with
  | nil => obtain ⟨ci, hmem, _⟩ := h; cases hmem
  | cons a rest ih =>
    cases hfp : findProduct st a.product with
    | none =>
      exact ⟨.productNotFound a.product, by simp [firstLineError, hfp], rfl⟩
    | some p =>
      cases hact : p.isActive with
      | false =>
        exact ⟨.productUnavailable p.name, by simp [firstLineError, hfp, hact], rfl⟩
      | true =>
        by_cases hstock : p.stockQuantity < a.quantity
        · exact ⟨.insufficientStock p.name p.stockQuantity a.quantity,
            by simp [firstLineError, hfp, hact, hstock], rfl⟩
        · have hgood : lineBad st a = false := by simp [lineBad, hfp, hact, hstock]
          have hrest : ∃ ci ∈ rest, lineBad st ci = true := by
            obtain ⟨ci, hmem, hbad⟩ := h
            rcases List.mem_cons.mp hmem with rfl | hmem'
            · rw [hgood] at hbad; cases hbad
            · exact ⟨ci, hmem', hbad⟩
          obtain ⟨e, he, hie⟩ := ih hrest
          exact ⟨e, by simp [firstLineError, hfp, hact, hstock, he], hie⟩

theorem processItems_error_of_firstLineError {st : DBState} {items : List CartItem} {e : CreateError}
    (h : firstLineError st items = some e) :
    processItems st items = Except.error e := by
  induction items with
  | nil => cases h
  | cons a rest ih =>
    cases hfp : findProduct st a.product with
    | none =>
      simp [firstLineError, hfp] at h
      simp [processItems, hfp, ← h]
    | some p =>
      cases hact : p.isActive with
      | false =>
        simp [firstLineError, hfp, hact] at h
        simp [processItems, hfp, hact, ← h]
      | true =>
        by_cases hstock : p.stockQuantity < a.quantity
        · simp [firstLineError, hfp, hact, hstock] at h
          simp [processItems, hfp, hact, hstock, ← h]
        · simp only [firstLineError, hfp, hact, hstock, if_false, Bool.not_true] at h
          simp at h
          simp [processItems, hfp, hact, hstock, ih h]

/-! ### C1: order creation aborts wholesale on a bad cart line -/

/-- C1: for every order-creation request in which some cart line's product is
missing, inactive, or has available stock below the requested quantity, the
operation fails with the error of the first offending line (a product-not-
found / product-unavailable / insufficient-stock error) and nothing persists:
the returned state is exactly the initial state, so no order document is
created, no product's `stockQuantity` changes, and the user's cart is left
untouched. -/
theorem createOrder_aborts_on_bad_cart_line (st : DBState) (req : CreateReq)
    (gw : Option String) (nid : Nat) (items : List CartItem)
    (haddr : truthyStr req.shippingAddress = true)
    (hpm : truthyStr req.paymentMethod = true)
    (hcart : findCart st req.userId = some items)
    (hbad : ∃ ci ∈ items, lineBad st ci = true) :
    ∃ e, createOrder st req gw nid = (st, CreateResp.err e) ∧
      firstLineError st items = some e ∧ e.isItemError = true := by
  obtain ⟨e, hfle, hie⟩ := firstLineError_isSome_of_bad hbad
  have hpe := processItems_error_of_firstLineError hfle
  have hne : items.isEmpty = false := by
    obtain ⟨ci, hmem, _⟩ := hbad
    cases items
    · cases hmem
    · rfl
  refine ⟨e, ?_, hfle, hie⟩
  simp [createOrder, haddr, hpm, hcart, hne, hpe]

def wProduct : Product := { name := "Widget", price := 10, stockQuantity := 5, isActive := true, images := ["img"] }

def wStateC1 : DBState :=
  { products := [(1, wProduct)], carts := [(7, [{ product := 1, quantity := 6 }])], orders := [] }

def wReqCOD : CreateReq :=
  { userId := 7, shippingAddress := some "addr", paymentMethod := some "COD",
    taxPriceInput := none, shippingPriceInput := none }

theorem createOrder_aborts_on_bad_cart_line_witness :
    ∃ e, createOrder wStateC1 wReqCOD none 100 = (wStateC1, CreateResp.err e) ∧
      firstLineError wStateC1 [{ product := 1, quantity := 6 }] = some e ∧
      e.isItemError = true :=
  createOrder_aborts_on_bad_cart_line wStateC1 wReqCOD none 100
    [{ product := 1, quantity := 6 }] (by decide) (by decide) (by decide)
    ⟨{ product := 1, quantity := 6 }, by decide, by decide⟩

/-! ### C8: gateway failure aborts the whole transaction -/

/-- C8: for every gateway-routed order-creation request in which the external
create-remote-order call fails (`gw = none`), the whole transaction is
aborted and the caller gets the gateway-failure error, whose HTTP status
is 500: the returned state is exactly the initial state, so no local order is
persisted, no stock is decremented, and the cart is not deleted. -/
theorem createOrder_aborts_on_gateway_failure (st : DBState) (req : CreateReq) (nid : Nat)
    (items : List CartItem) (ois : List OrderItem) (ip : ℚ) (ws : List DBWrite)
    (haddr : truthyStr req.shippingAddress = true)
    (hpm : truthyStr req.paymentMethod = true)
    (hcart : findCart st req.userId = some items)
    (hne : items.isEmpty = false)
    (hitems : processItems st items = Except.ok (ois, ip, ws))
    (honline : onlineMethod req = true)
    (hpaise : ¬ jsRound ((ip + jsOrZero req.taxPriceInput + jsOrZero req.shippingPriceInput) * 100) ≤ 0) :
    createOrder st req none nid = (st, CreateResp.err CreateError.gatewayFailure) ∧
      CreateError.httpStatus CreateError.gatewayFailure = 500 := by
  refine ⟨?_, rfl⟩
  simp [createOrder, haddr, hpm, hcart, hne, hitems, honline, hpaise]

def wStateOk : DBState :=
  { products := [(1, wProduct)], carts := [(7, [{ product := 1, quantity := 2 }])], orders := [] }

def wReqOnline : CreateReq :=
  { userId := 7, shippingAddress := some "addr", paymentMethod := some "Razorpay",
    taxPriceInput := some 1, shippingPriceInput := some 2 }

theorem wPaisePositive :
    ¬ jsRound ((10 * ((2 : ℤ) : ℚ) + 0 + jsOrZero (some 1) + jsOrZero (some 2)) * 100) ≤ 0 := by
  norm_num [jsRound, jsOrZero]

theorem createOrder_aborts_on_gateway_failure_witness :
    createOrder wStateOk wReqOnline none 100 = (wStateOk, CreateResp.err CreateError.gatewayFailure) ∧
      CreateError.httpStatus CreateError.gatewayFailure = 500 :=
  createOrder_aborts_on_gateway_failure wStateOk wReqOnline 100
    [{ product := 1, quantity := 2 }]
    [{ product := 1, name := "Widget", image := some "img", price := 10, quantity := 2 }]
    (10 * ((2 : ℤ) : ℚ) + 0) [DBWrite.incStock 1 (-2)]
    (by decide) (by decide) (by decide) (by decide) rfl (by decide) wPaisePositive

/-! ### List and state lemmas -/

theorem find?_map_of_pred {α : Type} (f : α → α) (p : α → Bool)
    (hf : ∀ x, p (f x) = p x) (l : List α) :
    (l.map f).find? p = (l.find? p).map f := by
  induction l with
  | nil => rfl
  | cons x xs ih =>
    cases hx : p x with
    | true =>
      rw [List.find?_cons_of_pos _ hx, List.map_cons,
        List.find?_cons_of_pos _ (by rw [hf, hx])]
      rfl
    | false =>
      rw [List.find?_cons_of_neg _ (by simp [hx]), List.map_cons,
        List.find?_cons_of_neg _ (by simp [hf, hx]), ih]

theorem find?_replaceById {l : List Order} {o o' : Order} {p : Order → Bool}
    (hnd : (l.map (·.id)).Nodup) (hfind : l.find? p = some o)
    (hid : o'.id = o.id) (hp : p o' = true) :
    (replaceById l o').find? p = some o' := by
  induction l with
  | nil => cases hfind
  | cons x xs ih =>
    rw [List.map_cons, List.nodup_cons] at hnd
    cases hx : p x with
    | true =>
      rw [List.find?_cons_of_pos _ hx] at hfind
      injection hfind with hxo
      subst hxo
      unfold replaceById
      rw [if_pos (by simp [hid])]
      exact List.find?_cons_of_pos _ hp
    | false =>
      rw [List.find?_cons_of_neg _ (by simp [hx])] at hfind
      have hmem : o ∈ xs := List.mem_of_find?_eq_some hfind
      have hne : ¬ x.id = o'.id := by
        rw [hid]
        intro hcontra
        exact hnd.1 (hcontra ▸ List.mem_map_of_mem (·.id) hmem)
      unfold replaceById
      rw [if_neg (by simpa using hne)]
      rw [List.find?_cons_of_neg _ (by simp [hx])]
      exact ih hnd.2 hfind

theorem all_replaceById {l : List Order} {o : Order} {p : Order → Bool}
    (hl : l.all p = true) (ho : p o = true) : (replaceById l o).all p = true := by
  induction l with
  | nil => rfl
  | cons x xs ih =>
    rw [List.all_cons, Bool.and_eq_true] at hl
    unfold replaceById
    by_cases hid : (x.id == o.id) = true
    · rw [if_pos hid, List.all_cons, ho, hl.2]; rfl
    · rw [if_neg hid, List.all_cons, hl.1, ih hl.2]; rfl

/-- A write that is not an order insertion. -/
def DBWrite.keepsOrders : DBWrite → Bool
  | .createDoc _ => false
  | _ => true

theorem orders_applyWrite_keeps {st : DBState} {w : DBWrite}
    (h : w.keepsOrders = true) : (applyWrite st w).orders = st.orders := by
  cases w with
  | createDoc o => cases h
  | incStock pid d => rfl
  | deleteCart uid => rfl

theorem orders_applyWrites_keeps {ws : List DBWrite} {st : DBState}
    (h : ∀ w ∈ ws, w.keepsOrders = true) : (applyWrites st ws).orders = st.orders := by
  induction ws generalizing st with
  | nil => rfl
  | cons w rest ih =>
    have : (applyWrites st (w :: rest)) = applyWrites (applyWrite st w) rest := rfl
    rw [this, ih (fun x hx => h x (List.mem_cons_of_mem _ hx)),
      orders_applyWrite_keeps (h w (List.mem_cons_self _ _))]

theorem processItems_writes_keep {st : DBState} {items : List CartItem}
    {ois : List OrderItem} {ip : ℚ} {ws : List DBWrite}
    (h : processItems st items = Except.ok (ois, ip, ws)) :
    ∀ w ∈ ws, w.keepsOrders = true := by
  induction items generalizing ois ip ws with
  | nil =>
    simp [processItems] at h
    obtain ⟨h1, h2, h3⟩ := h
    subst h3
    intro w hw
    cases hw
  | cons a rest ih =>
    cases hfp : findProduct st a.product with
    | none => simp [processItems, hfp] at h
    | some p =>
      cases hact : p.isActive with
      | false => simp [processItems, hfp, hact] at h
      | true =>
        by_cases hstock : p.stockQuantity < a.quantity
        · simp [processItems, hfp, hact, hstock] at h
        · cases hrest : processItems st rest with
          | error e => simp [processItems, hfp, hact, hstock, hrest] at h
          | ok triple =>
            obtain ⟨ois', ip', ws'⟩ := triple
            simp [processItems, hfp, hact, hstock, hrest] at h
            obtain ⟨h1, h2, h3⟩ := h
            subst h3
            intro w hw
            rcases List.mem_cons.mp hw with rfl | hw'
            · rfl
            · exact ih hrest w hw'

/-! ### Webhook reconciliation lemmas -/

theorem rzpMatches_of_find {st : DBState} {gid : String} {o : Order}
    (hfind : findByRzpOrderId st gid = some o) : rzpMatches gid o = true :=
  List.find?_some hfind

theorem verify_processes {st : DBState} {req : WebhookReq} {now : ℤ} {o : Order}
    (hsig : req.digest = req.signature)
    (hev : req.event = "order.paid" ∨ req.event = "payment.captured")
    (hfind : findByRzpOrderId st req.orderEntityId = some o)
    (hunpaid : o.isPaid = false) :
    verifyRazorpayWebhook st true req now
      = (saveOrder st (webhookPaidOrder o req.paymentEntity now), WebhookResp.ackProcessed) := by
  rcases hev with h | h <;> simp [verifyRazorpayWebhook, hsig, h, hfind, hunpaid]

theorem findByRzp_after_processed {st : DBState} {req : WebhookReq} {now : ℤ} {o : Order}
    (hwf : ordersWF st)
    (hfind : findByRzpOrderId st req.orderEntityId = some o) :
    findByRzpOrderId (saveOrder st (webhookPaidOrder o req.paymentEntity now)) req.orderEntityId
      = some (webhookPaidOrder o req.paymentEntity now) :=
  find?_replaceById hwf hfind rfl
    (show rzpMatches req.orderEntityId (webhookPaidOrder o req.paymentEntity now) = true from
      @rzpMatches_of_find st req.orderEntityId o hfind)

/-! ### C2: a duplicate payment-success webhook is a no-op -/

/-- C2: a verified payment-success webhook (`order.paid` or
`payment.captured`) whose gateway order id matches a local order that is
already paid performs no state change and answers HTTP 200; consequently a
second delivery of the identical notification after a first successful one
leaves the state (hence `isPaid`, `paidAt`, `orderStatus`, `paymentResult`)
exactly as after the first delivery: one `isPaid` transition, one
`paymentResult` write. -/
theorem webhook_duplicate_is_noop :
    (∀ (st : DBState) (req : WebhookReq) (now : ℤ) (o : Order),
      req.digest = req.signature →
      (req.event = "order.paid" ∨ req.event = "payment.captured") →
      findByRzpOrderId st req.orderEntityId = some o →
      o.isPaid = true →
      verifyRazorpayWebhook st true req now = (st, WebhookResp.ackAlreadyPaid) ∧
        WebhookResp.httpStatus WebhookResp.ackAlreadyPaid = 200) ∧
    (∀ (st : DBState) (req : WebhookReq) (now now2 : ℤ) (o : Order),
      ordersWF st →
      req.digest = req.signature →
      (req.event = "order.paid" ∨ req.event = "payment.captured") →
      findByRzpOrderId st req.orderEntityId = some o →
      o.isPaid = false →
      (verifyRazorpayWebhook st true req now).2 = WebhookResp.ackProcessed ∧
      verifyRazorpayWebhook (verifyRazorpayWebhook st true req now).1 true req now2
        = ((verifyRazorpayWebhook st true req now).1, WebhookResp.ackAlreadyPaid)) := by
  constructor
  · intro st req now o hsig hev hfind hpaid
    refine ⟨?_, rfl⟩
    rcases hev with h | h <;> simp [verifyRazorpayWebhook, hsig, h, hfind, hpaid]
  · intro st req now now2 o hwf hsig hev hfind hunpaid
    have h1 := @verify_processes st req now o hsig hev hfind hunpaid
    rw [h1]
    have hfind2 := @findByRzp_after_processed st req now o hwf hfind
    refine ⟨rfl, ?_⟩
    have hpaid2 : (webhookPaidOrder o req.paymentEntity now).isPaid = true := rfl
    rcases hev with h | h <;> simp [verifyRazorpayWebhook, hsig, h, hfind2, hpaid2]

def wOrderPaid : Order :=
  { id := 1, user := 7, items := [], paymentMethod := "Razorpay", paymentResult := emptyPaymentRec,
    razorpayOrderId := some "gw_1", itemsPrice := 20, taxPrice := 1, shippingPrice := 2,
    totalPrice := 23, orderStatus := "Processing", isPaid := true,
    paidAt := some (TimeVal.millis 5), deliveredAt := none }

def wStatePaid : DBState := { products := [], carts := [], orders := [wOrderPaid] }

def wOrderUnpaid : Order :=
  { id := 1, user := 7, items := [], paymentMethod := "Razorpay", paymentResult := emptyPaymentRec,
    razorpayOrderId := some "gw_1", itemsPrice := 20, taxPrice := 1, shippingPrice := 2,
    totalPrice := 23, orderStatus := "Pending Payment", isPaid := false,
    paidAt := none, deliveredAt := none }

def wStateUnpaid : DBState := { products := [], carts := [], orders := [wOrderUnpaid] }

def wWebhookReq : WebhookReq :=
  { signature := "sig", digest := "sig", event := "order.paid",
    paymentEntity := { id := "pay_1", status := "captured", created_at := some 111, email := "x@y.z" },
    orderEntityId := "gw_1" }

theorem webhook_duplicate_is_noop_witness :
    (verifyRazorpayWebhook wStatePaid true wWebhookReq 5 = (wStatePaid, WebhookResp.ackAlreadyPaid) ∧
      WebhookResp.httpStatus WebhookResp.ackAlreadyPaid = 200) ∧
    ((verifyRazorpayWebhook wStateUnpaid true wWebhookReq 5).2 = WebhookResp.ackProcessed ∧
      verifyRazorpayWebhook (verifyRazorpayWebhook wStateUnpaid true wWebhookReq 5).1 true wWebhookReq 9
        = ((verifyRazorpayWebhook wStateUnpaid true wWebhookReq 5).1, WebhookResp.ackAlreadyPaid)) :=
  ⟨webhook_duplicate_is_noop.1 wStatePaid wWebhookReq 5 wOrderPaid rfl (Or.inl rfl) (by decide) rfl,
   webhook_duplicate_is_noop.2 wStateUnpaid wWebhookReq 5 9 wOrderUnpaid (by decide) rfl (Or.inl rfl)
     (by decide) rfl⟩

/-! ### C9: webhook for an unknown gateway order id -/

/-- C9: a verified payment-success webhook whose gateway order id matches no
local order is acknowledged with HTTP 200 (so the gateway stops retrying) and
performs no state change: the returned state is exactly the initial state. -/
theorem webhook_unknown_order_acknowledged (st : DBState) (req : WebhookReq) (now : ℤ)
    (hsig : req.digest = req.signature)
    (hev : req.event = "order.paid" ∨ req.event = "payment.captured")
    (hfind : findByRzpOrderId st req.orderEntityId = none) :
    verifyRazorpayWebhook st true req now = (st, WebhookResp.ackNotFound) ∧
      WebhookResp.httpStatus WebhookResp.ackNotFound = 200 := by
  refine ⟨?_, rfl⟩
  rcases hev with h | h <;> simp [verifyRazorpayWebhook, hsig, h, hfind]

def wStateNoOrders : DBState := { products := [], carts := [], orders := [] }

theorem webhook_unknown_order_acknowledged_witness :
    verifyRazorpayWebhook wStateNoOrders true wWebhookReq 5 = (wStateNoOrders, WebhookResp.ackNotFound) ∧
      WebhookResp.httpStatus WebhookResp.ackNotFound = 200 :=
  webhook_unknown_order_acknowledged wStateNoOrders wWebhookReq 5 rfl (Or.inl rfl) (by decide)

/-! ### C6: first delivery of a payment-success webhook -/

def cOrderShipped : Order :=
  { id := 1, user := 7, items := [], paymentMethod := "Razorpay", paymentResult := emptyPaymentRec,
    razorpayOrderId := some "gw_1", itemsPrice := 20, taxPrice := 0, shippingPrice := 0,
    totalPrice := 20, orderStatus := "Shipped", isPaid := false, paidAt := none,
    deliveredAt := none }

def cStateShipped : DBState := { products := [], carts := [], orders := [cOrderShipped] }

/-- C6 counterexample: the matched order is unpaid but already further along
in its lifecycle (`Shipped`); the handler still rewrites `orderStatus` to
`Processing`, so the claim's guard "only if the order is not already further
along" does not exist in the code. -/
theorem webhook_overwrites_shipped_status :
    cOrderShipped.orderStatus = "Shipped" ∧
    ((verifyRazorpayWebhook cStateShipped true wWebhookReq 0).1.orders.map
        (fun o => o.orderStatus)) = ["Processing"] := by
  constructor
  · rfl
  · rfl

/-- C6 (amended): for every verified payment-success webhook whose gateway
order id matches a local unpaid order, the handler — in one transaction —
sets `isPaid := true`, `paidAt` from the event timestamp, stores the gateway
transaction id, gateway status and payer email into `paymentResult`, and sets
`orderStatus` to `Processing` unconditionally (even when the order was
already further along in its lifecycle). -/
theorem webhook_marks_order_paid (st : DBState) (req : WebhookReq) (now : ℤ) (o : Order)
    (hwf : ordersWF st)
    (hsig : req.digest = req.signature)
    (hev : req.event = "order.paid" ∨ req.event = "payment.captured")
    (hfind : findByRzpOrderId st req.orderEntityId = some o)
    (hunpaid : o.isPaid = false) :
    verifyRazorpayWebhook st true req now
      = (saveOrder st (webhookPaidOrder o req.paymentEntity now), WebhookResp.ackProcessed) ∧
    findByRzpOrderId (verifyRazorpayWebhook st true req now).1 req.orderEntityId
      = some (webhookPaidOrder o req.paymentEntity now) ∧
    (webhookPaidOrder o req.paymentEntity now).isPaid = true ∧
    (webhookPaidOrder o req.paymentEntity now).paidAt
      = some (eventTime req.paymentEntity.created_at now) ∧
    (webhookPaidOrder o req.paymentEntity now).orderStatus = "Processing" ∧
    (webhookPaidOrder o req.paymentEntity now).paymentResult.id = some req.paymentEntity.id ∧
    (webhookPaidOrder o req.paymentEntity now).paymentResult.status = some req.paymentEntity.status ∧
    (webhookPaidOrder o req.paymentEntity now).paymentResult.email_address
      = some req.paymentEntity.email := by
  have h1 := @verify_processes st req now o hsig hev hfind hunpaid
  refine ⟨h1, ?_, rfl, rfl, rfl, rfl, rfl, rfl⟩
  rw [h1]
  exact @findByRzp_after_processed st req now o hwf hfind

theorem webhook_marks_order_paid_witness :
    verifyRazorpayWebhook wStateUnpaid true wWebhookReq 5
      = (saveOrder wStateUnpaid (webhookPaidOrder wOrderUnpaid wWebhookReq.paymentEntity 5),
         WebhookResp.ackProcessed) ∧
    findByRzpOrderId (verifyRazorpayWebhook wStateUnpaid true wWebhookReq 5).1 wWebhookReq.orderEntityId
      = some (webhookPaidOrder wOrderUnpaid wWebhookReq.paymentEntity 5) ∧
    (webhookPaidOrder wOrderUnpaid wWebhookReq.paymentEntity 5).isPaid = true ∧
    (webhookPaidOrder wOrderUnpaid wWebhookReq.paymentEntity 5).paidAt
      = some (eventTime wWebhookReq.paymentEntity.created_at 5) ∧
    (webhookPaidOrder wOrderUnpaid wWebhookReq.paymentEntity 5).orderStatus = "Processing" ∧
    (webhookPaidOrder wOrderUnpaid wWebhookReq.paymentEntity 5).paymentResult.id
      = some wWebhookReq.paymentEntity.id ∧
    (webhookPaidOrder wOrderUnpaid wWebhookReq.paymentEntity 5).paymentResult.status
      = some wWebhookReq.paymentEntity.status ∧
    (webhookPaidOrder wOrderUnpaid wWebhookReq.paymentEntity 5).paymentResult.email_address
      = some wWebhookReq.paymentEntity.email :=
  webhook_marks_order_paid wStateUnpaid wWebhookReq 5 wOrderUnpaid (by decide) rfl (Or.inl rfl)
    (by decide) rfl

/-! ### Paid-order invariant lemmas -/

theorem paidAtInv_of_orderInv {o : Order} (h : orderInv o = true) : paidAtInv o = true := by
  unfold orderInv at h
  unfold paidAtInv
  cases hp : o.isPaid with
  | false => rfl
  | true =>
    rw [hp] at h
    simp at h ⊢
    exact h.1

theorem paidAtInv_applyStatusField {o : Order} {req : UpdateReq} {now : ℤ}
    (h : paidAtInv o = true) : paidAtInv (applyStatusField o req now) = true := by
  unfold applyStatusField applyStatusPaid applyStatusDelivered
  repeat' split
  all_goals first | exact h | rfl

theorem paidAtInv_applyIsPaidField {o : Order} {req : UpdateReq} {now : ℤ}
    (h : paidAtInv o = true) : paidAtInv (applyIsPaidField o req now) = true := by
  unfold applyIsPaidField
  cases req.isPaid with
  | none => exact h
  | some p =>
    dsimp only
    by_cases h1 : (p && o.paidAt.isNone) = true
    · rw [if_pos h1]
      simp [paidAtInv]
    · rw [if_neg h1]
      cases hp : p with
      | false => simp [paidAtInv]
      | true =>
        rw [hp] at h1
        simp at h1
        cases hpa : o.paidAt with
        | none => rw [hpa] at h1; cases h1 rfl
        | some t => simp [paidAtInv, hpa]

theorem paidAtInv_applyPaymentResultField {o : Order} {req : UpdateReq} {now : ℤ}
    (h : paidAtInv o = true) : paidAtInv (applyPaymentResultField o req now) = true := by
  unfold applyPaymentResultField
  cases req.paymentResult with
  | none => exact h
  | some patch =>
    dsimp only
    by_cases h1 : (successStatusVal patch.status && !o.isPaid) = true
    · rw [if_pos h1]
      split <;> simp [paidAtInv]
    · rw [if_neg h1]
      exact h

theorem paidAtInv_autoCorrect {o : Order} (h : paidAtInv o = true) :
    paidAtInv (autoCorrect o) = true := by
  unfold autoCorrect
  split <;> exact h

theorem orderInv_mutateOrder {o : Order} {req : UpdateReq} {now : ℤ}
    (h : paidAtInv o = true) : orderInv (mutateOrder o req now) = true := by
  have h3 : paidAtInv (applyPaymentResultField (applyIsPaidField (applyStatusField o req now) req now) req now) = true :=
    paidAtInv_applyPaymentResultField (paidAtInv_applyIsPaidField (paidAtInv_applyStatusField h))
  generalize hgen : applyPaymentResultField (applyIsPaidField (applyStatusField o req now) req now) req now = o3
  rw [hgen] at h3
  unfold mutateOrder
  rw [hgen]
  unfold autoCorrect orderInv unpaidInitial
  by_cases hc : (o3.isPaid && (o3.orderStatus == "Pending Payment" || o3.orderStatus == "Pending")) = true
  · rw [if_pos hc]
    have hp : o3.isPaid = true := by
      cases hp : o3.isPaid
      · rw [hp] at hc; cases hc
      · rfl
    have hpa : o3.paidAt.isSome = true := by
      unfold paidAtInv at h3
      rw [hp] at h3
      simpa using h3
    simp [hp, hpa]
  · rw [if_neg hc]
    cases hp : o3.isPaid with
    | false => rfl
    | true =>
      rw [hp] at hc
      simp at hc
      have hpa : o3.paidAt.isSome = true := by
        unfold paidAtInv at h3
        rw [hp] at h3
        simpa using h3
      simp [hpa, hc]

theorem autoCorrect_status {o : Order} (hp : (autoCorrect o).isPaid = true) :
    unpaidInitial (autoCorrect o).orderStatus = false := by
  unfold autoCorrect at hp ⊢
  by_cases hc : (o.isPaid && (o.orderStatus == "Pending Payment" || o.orderStatus == "Pending")) = true
  · rw [if_pos hc] at *
    rfl
  · rw [if_neg hc] at *
    unfold unpaidInitial
    rw [hp] at hc
    simpa using hc

theorem stateInv_saveOrder {st : DBState} {o : Order}
    (hinv : stateInv st = true) (ho : orderInv o = true) :
    stateInv (saveOrder st o) = true :=
  all_replaceById hinv ho

theorem stateInv_commit {st : DBState} {ord : Order} {ws : List DBWrite} {uid : Nat}
    (hinv : stateInv st = true) (hord : orderInv ord = true)
    (hkeep : ∀ w ∈ ws, w.keepsOrders = true) :
    stateInv (applyWrites st (DBWrite.createDoc ord :: ws ++ [DBWrite.deleteCart uid])) = true := by
  have hkeep' : ∀ w ∈ ws ++ [DBWrite.deleteCart uid], w.keepsOrders = true := by
    intro w hw
    rcases List.mem_append.mp hw with hl | hr
    · exact hkeep w hl
    · rcases List.mem_singleton.mp hr with rfl
      rfl
  have hstep : applyWrites st (DBWrite.createDoc ord :: ws ++ [DBWrite.deleteCart uid])
      = applyWrites (applyWrite st (DBWrite.createDoc ord)) (ws ++ [DBWrite.deleteCart uid]) := rfl
  unfold stateInv
  rw [hstep, orders_applyWrites_keeps hkeep']
  show (st.orders ++ [ord]).all orderInv = true
  rw [List.all_append]
  unfold stateInv at hinv
  rw [hinv, List.all_cons, hord]
  rfl

theorem cancelRestores_keep {o : Order} {req : UpdateReq} :
    ∀ w ∈ cancelRestores o req, w.keepsOrders = true := by
  unfold cancelRestores
  cases hreq : req.orderStatus with
  | none => intro w hw; cases hw
  | some ns =>
    dsimp only
    intro w hw
    split at hw
    · cases hw
    · split at hw
      · obtain ⟨it, _, rfl⟩ := List.mem_map.mp hw
        rfl
      · cases hw

theorem stateInv_createOrder (st : DBState) (req : CreateReq) (gw : Option String) (nid : Nat)
    (hinv : stateInv st = true) : stateInv (createOrder st req gw nid).1 = true := by
  unfold createOrder
  split
  · exact hinv
  split
  · exact hinv
  split
  · exact hinv
  split
  · exact hinv
  rename_i items hmiss hne ois ip ws heq
  split
  · split
    · exact hinv
    split
    · exact hinv
    split
    · exact hinv
    exact stateInv_commit hinv rfl (processItems_writes_keep heq)
  · exact stateInv_commit hinv rfl (processItems_writes_keep heq)

theorem stateInv_verifyWebhook (st : DBState) (sc : Bool) (req : WebhookReq) (now : ℤ)
    (hinv : stateInv st = true) : stateInv (verifyRazorpayWebhook st sc req now).1 = true := by
  unfold verifyRazorpayWebhook
  split
  · exact hinv
  · split
    · exact hinv
    · split
      · split
        · exact hinv
        · split
          · exact hinv
          · exact stateInv_saveOrder hinv rfl
      · exact hinv

theorem orderInv_of_mem {st : DBState} {o : Order}
    (hinv : stateInv st = true) (hmem : o ∈ st.orders) : orderInv o = true := by
  unfold stateInv at hinv
  exact List.all_eq_true.mp hinv o hmem

theorem stateInv_updateOrderStatus (st : DBState) (oid : Nat) (req : UpdateReq) (now : ℤ)
    (hinv : stateInv st = true) : stateInv (updateOrderStatus st oid req now).1 = true := by
  unfold updateOrderStatus
  cases hfo : findOrder st oid with
  | none => exact hinv
  | some o0 =>
    dsimp only
    split
    · have ho0 : orderInv o0 = true :=
        orderInv_of_mem hinv (List.mem_of_find?_eq_some hfo)
      have horders : (applyWrites st (cancelRestores o0 req)).orders = st.orders :=
        orders_applyWrites_keeps cancelRestores_keep
      have hinv' : stateInv (applyWrites st (cancelRestores o0 req)) = true := by
        unfold stateInv
        rw [horders]
        exact hinv
      exact stateInv_saveOrder hinv' (orderInv_mutateOrder (paidAtInv_of_orderInv ho0))
    · exact hinv

theorem updateOrderStatus_ok_status (st : DBState) (oid : Nat) (req : UpdateReq) (now : ℤ)
    (ord : Order) (h : (updateOrderStatus st oid req now).2 = UpdateResp.ok ord)
    (hp : ord.isPaid = true) : unpaidInitial ord.orderStatus = false := by
  unfold updateOrderStatus at h
  cases hfo : findOrder st oid with
  | none => rw [hfo] at h; cases h
  | some o0 =>
    rw [hfo] at h
    dsimp only at h
    split at h
    · dsimp only at h
      injection h with h'
      subst h'
      exact autoCorrect_status hp
    · cases h

/-! ### C4: the paid-order invariant is preserved by every mutating operation -/

/-- C4: order creation, webhook reconciliation and the admin status
transition each preserve the invariant that `isPaid = true` implies `paidAt`
is set and `orderStatus` is not an unpaid-initial state
(`Pending Payment`/`Pending`); moreover the status-transition operation
auto-corrects: whenever the order it saves and returns has `isPaid = true`
after its mutation, that order's status is not unpaid-initial, with no
assumption on the incoming state. -/
theorem paid_invariant_preserved :
    (∀ (st : DBState) (req : CreateReq) (gw : Option String) (nid : Nat),
      stateInv st = true → stateInv (createOrder st req gw nid).1 = true) ∧
    (∀ (st : DBState) (sc : Bool) (req : WebhookReq) (now : ℤ),
      stateInv st = true → stateInv (verifyRazorpayWebhook st sc req now).1 = true) ∧
    (∀ (st : DBState) (oid : Nat) (req : UpdateReq) (now : ℤ),
      stateInv st = true → stateInv (updateOrderStatus st oid req now).1 = true) ∧
    (∀ (st : DBState) (oid : Nat) (req : UpdateReq) (now : ℤ) (ord : Order),
      (updateOrderStatus st oid req now).2 = UpdateResp.ok ord →
      ord.isPaid = true → unpaidInitial ord.orderStatus = false) :=
  ⟨stateInv_createOrder, stateInv_verifyWebhook, stateInv_updateOrderStatus,
   updateOrderStatus_ok_status⟩

def wUpdateReqShip : UpdateReq :=
  { orderStatus := some "Shipped", isPaid := none, paymentResult := none }

def wOrderShippedPaid : Order := { wOrderPaid with orderStatus := "Shipped" }

theorem paid_invariant_preserved_witness :
    stateInv (createOrder wStateOk wReqCOD none 100).1 = true ∧
    stateInv (verifyRazorpayWebhook wStateUnpaid true wWebhookReq 5).1 = true ∧
    stateInv (updateOrderStatus wStatePaid 1 wUpdateReqShip 5).1 = true ∧
    unpaidInitial wOrderShippedPaid.orderStatus = false :=
  ⟨paid_invariant_preserved.1 wStateOk wReqCOD none 100 (by decide),
   paid_invariant_preserved.2.1 wStateUnpaid true wWebhookReq 5 (by decide),
   paid_invariant_preserved.2.2.1 wStatePaid 1 wUpdateReqShip 5 (by decide),
   paid_invariant_preserved.2.2.2 wStatePaid 1 wUpdateReqShip 5 wOrderShippedPaid
     (by decide) (by decide)⟩

/-! ### Inventory restoration lemmas -/

theorem findProduct_applyWrite_inc {st : DBState} {pid pid' : Nat} {d : ℤ} {p : Product}
    (hp : findProduct st pid = some p) :
    findProduct (applyWrite st (DBWrite.incStock pid' d)) pid
      = some (if pid == pid' then { p with stockQuantity := p.stockQuantity + d } else p) := by
  unfold findProduct at hp ⊢
  unfold applyWrite
  dsimp only
  rw [find?_map_of_pred _ _ (fun kp => by
    by_cases h : (kp.1 == pid') = true
    · rw [if_pos h]
    · rw [if_neg h])]
  cases hf : st.products.find? (fun kp => kp.1 == pid) with
  | none => rw [hf] at hp; cases hp
  | some kp =>
    rw [hf] at hp
    have hp2 : kp.2 = p := by simpa using hp
    have hkey' : kp.1 = pid := by
      have := List.find?_some hf
      simpa using this
    by_cases h2 : (kp.1 == pid') = true
    · have hpp : (pid == pid') = true := by
        rw [← hkey']
        exact h2
      have h2' : kp.1 = pid' := by simpa using h2
      simp [h2, h2', hpp, hp2]
    · have hpp : (pid == pid') = false := by
        rw [← hkey']
        simpa using h2
      have h2' : ¬ kp.1 = pid' := by simpa using h2
      simp [h2, h2', hpp, hp2]

theorem linesQty_cons_eq {it : OrderItem} {rest : List OrderItem} {pid : Nat}
    (h : (it.product == pid) = true) :
    linesQty (it :: rest) pid = it.quantity + linesQty rest pid := by
  unfold linesQty
  rw [List.filter_cons, if_pos (by simpa using h), List.map_cons, List.sum_cons]

theorem linesQty_cons_ne {it : OrderItem} {rest : List OrderItem} {pid : Nat}
    (h : (it.product == pid) = false) :
    linesQty (it :: rest) pid = linesQty rest pid := by
  unfold linesQty
  rw [List.filter_cons, if_neg (by simp [h])]

theorem findProduct_applyWrites_incs (items : List OrderItem) (st : DBState) (pid : Nat)
    (p : Product) (hp : findProduct st pid = some p) :
    findProduct (applyWrites st (items.map (fun it => DBWrite.incStock it.product it.quantity))) pid
      = some { p with stockQuantity := p.stockQuantity + linesQty items pid } := by
  induction items generalizing st p with
  | nil =>
    show findProduct st pid = some { p with stockQuantity := p.stockQuantity + linesQty [] pid }
    have : linesQty [] pid = 0 := rfl
    rw [this, add_zero]
    exact hp
  | cons it rest ih =>
    have hstep := @findProduct_applyWrite_inc st pid it.product it.quantity p hp
    have hshow : applyWrites st ((it :: rest).map (fun x => DBWrite.incStock x.product x.quantity))
        = applyWrites (applyWrite st (DBWrite.incStock it.product it.quantity))
            (rest.map (fun x => DBWrite.incStock x.product x.quantity)) := rfl
    rw [hshow]
    by_cases heq : (pid == it.product) = true
    · rw [if_pos heq] at hstep
      rw [ih _ _ hstep]
      have hsym : (it.product == pid) = true := by
        have : pid = it.product := by simpa using heq
        simp [this]
      rw [linesQty_cons_eq hsym, ← add_assoc]
    · rw [if_neg heq] at hstep
      rw [ih _ _ hstep]
      have hsym : (it.product == pid) = false := by
        have : ¬ pid = it.product := by simpa using heq
        simp
        intro hcontra
        exact this hcontra.symm
      rw [linesQty_cons_ne hsym]

/-! ### C3: cancellation restores inventory exactly once -/

/-- The admin request that asks only for a `Cancelled` status transition. -/
def cancelReq : UpdateReq :=
  { orderStatus := some "Cancelled", isPaid := none, paymentResult := none }

theorem mutateOrder_cancel (o : Order) (now : ℤ) :
    mutateOrder o cancelReq now = { o with orderStatus := "Cancelled" } := by
  unfold mutateOrder cancelReq applyStatusField applyStatusPaid applyStatusDelivered
    applyIsPaidField applyPaymentResultField autoCorrect
  simp

theorem cancelRestores_eligible (o : Order)
    (hst : o.orderStatus ∈ (["Pending Payment", "Pending", "Processing"] : List String)) :
    cancelRestores o cancelReq
      = o.items.map (fun it => DBWrite.incStock it.product it.quantity) := by
  have hst' : o.orderStatus = "Pending Payment" ∨ o.orderStatus = "Pending" ∨
      o.orderStatus = "Processing" := by simpa using hst
  unfold cancelRestores cancelReq
  dsimp only
  rw [if_neg (by decide)]
  rcases hst' with h | h | h <;>
    rw [if_pos (by rw [h]; decide)]

theorem cancelRestores_cancelled (o : Order) (h : o.orderStatus = "Cancelled") :
    cancelRestores o cancelReq = [] := by
  unfold cancelRestores cancelReq
  dsimp only
  rw [if_neg (by decide), if_neg (by rw [h]; decide)]

/-- C3: transitioning an order into `Cancelled` from an eligible pre-shipped
state (`Pending Payment`, `Pending`, or `Processing` — which covers
paid-but-not-shipped orders) restores inventory for every order line exactly
once: each product's `stockQuantity` grows by exactly the total quantity its
lines hold (zero for products not on the order), the order is saved as
`Cancelled`, and a second `Cancelled` request against the now-cancelled order
changes no product's stock. -/
theorem cancellation_restores_inventory_once (st : DBState) (oid : Nat) (now now2 : ℤ)
    (o : Order) (hwf : ordersWF st) (hfo : findOrder st oid = some o)
    (hst : o.orderStatus ∈ (["Pending Payment", "Pending", "Processing"] : List String)) :
    (∀ pid p, findProduct st pid = some p →
      findProduct (updateOrderStatus st oid cancelReq now).1 pid
        = some { p with stockQuantity := p.stockQuantity + linesQty o.items pid }) ∧
    (updateOrderStatus st oid cancelReq now).2
      = UpdateResp.ok { o with orderStatus := "Cancelled" } ∧
    (updateOrderStatus (updateOrderStatus st oid cancelReq now).1 oid cancelReq now2).1.products
      = (updateOrderStatus st oid cancelReq now).1.products := by
  have hmut := mutateOrder_cancel o now
  have hres := cancelRestores_eligible o hst
  have hvalid : (validStatuses.contains (mutateOrder o cancelReq now).orderStatus) = true := by
    rw [hmut]
    exact (by decide : validStatuses.contains "Cancelled" = true)
  have hmain : updateOrderStatus st oid cancelReq now
      = (saveOrder (applyWrites st (cancelRestores o cancelReq)) { o with orderStatus := "Cancelled" },
         UpdateResp.ok { o with orderStatus := "Cancelled" }) := by
    unfold updateOrderStatus
    rw [hfo]
    dsimp only
    rw [if_pos hvalid, hmut]
  refine ⟨?_, ?_, ?_⟩
  · intro pid p hp
    rw [hmain]
    show findProduct (applyWrites st (cancelRestores o cancelReq)) pid = _
    rw [hres]
    exact findProduct_applyWrites_incs o.items st pid p hp
  · rw [hmain]
  · rw [hmain]
    dsimp only
    have horders : (applyWrites st (cancelRestores o cancelReq)).orders = st.orders :=
      orders_applyWrites_keeps cancelRestores_keep
    have hfo' : (applyWrites st (cancelRestores o cancelReq)).orders.find?
        (fun x => x.id == oid) = some o := by
      rw [horders]
      exact hfo
    have hnd : ((applyWrites st (cancelRestores o cancelReq)).orders.map (·.id)).Nodup := by
      rw [horders]
      exact hwf
    have hpo : ((({ o with orderStatus := "Cancelled" } : Order).id == oid)) = true := by
      have := List.find?_some hfo
      simpa using this
    have hfind2 : findOrder
        (saveOrder (applyWrites st (cancelRestores o cancelReq)) { o with orderStatus := "Cancelled" })
        oid = some { o with orderStatus := "Cancelled" } :=
      find?_replaceById hnd hfo' rfl hpo
    unfold updateOrderStatus
    rw [hfind2]
    dsimp only
    have hres2 : cancelRestores ({ o with orderStatus := "Cancelled" } : Order) cancelReq = [] :=
      cancelRestores_cancelled _ rfl
    have hmut2 := mutateOrder_cancel ({ o with orderStatus := "Cancelled" } : Order) now2
    have hvalid2 : (validStatuses.contains
        (mutateOrder ({ o with orderStatus := "Cancelled" } : Order) cancelReq now2).orderStatus) = true := by
      rw [hmut2]
      exact (by decide : validStatuses.contains "Cancelled" = true)
    rw [if_pos hvalid2, hres2]
    rfl

def wProd1 : Product := { name := "A", price := 10, stockQuantity := 3, isActive := true, images := [] }

def wProd2 : Product := { name := "B", price := 5, stockQuantity := 4, isActive := true, images := [] }

def wOrderProcessing : Order :=
  { id := 2, user := 7,
    items := [{ product := 1, name := "A", image := none, price := 10, quantity := 2 },
              { product := 2, name := "B", image := none, price := 5, quantity := 1 }],
    paymentMethod := "COD", paymentResult := emptyPaymentRec, razorpayOrderId := none,
    itemsPrice := 25, taxPrice := 0, shippingPrice := 0, totalPrice := 25,
    orderStatus := "Processing", isPaid := false, paidAt := none, deliveredAt := none }

def wStateCancel : DBState :=
  { products := [(1, wProd1), (2, wProd2)], carts := [], orders := [wOrderProcessing] }

theorem cancellation_restores_inventory_once_witness :
    findProduct (updateOrderStatus wStateCancel 2 cancelReq 11).1 1
      = some { wProd1 with stockQuantity := wProd1.stockQuantity + linesQty wOrderProcessing.items 1 } ∧
    (updateOrderStatus wStateCancel 2 cancelReq 11).2
      = UpdateResp.ok { wOrderProcessing with orderStatus := "Cancelled" } ∧
    (updateOrderStatus (updateOrderStatus wStateCancel 2 cancelReq 11).1 2 cancelReq 12).1.products
      = (updateOrderStatus wStateCancel 2 cancelReq 11).1.products :=
  ⟨(cancellation_restores_inventory_once wStateCancel 2 11 12 wOrderProcessing
      (by decide) (by decide) (by decide)).1 1 wProd1 (by decide),
   (cancellation_restores_inventory_once wStateCancel 2 11 12 wOrderProcessing
      (by decide) (by decide) (by decide)).2.1,
   (cancellation_restores_inventory_once wStateCancel 2 11 12 wOrderProcessing
      (by decide) (by decide) (by decide)).2.2⟩

/-! ### Inversion of a successful order creation -/

theorem createOrder_ok_inv {st : DBState} {req : CreateReq} {gw : Option String} {nid : Nat}
    {st' : DBState} {ord : Order} {pd : Option PayDetails}
    (h : createOrder st req gw nid = (st', CreateResp.ok ord pd)) :
    ∃ items ois ip ws,
      findCart st req.userId = some items ∧
      processItems st items = Except.ok (ois, ip, ws) ∧
      ((onlineMethod req = true ∧ ∃ gid, gw = some gid ∧
          ord = { baseOrder req nid ois ip with razorpayOrderId := some gid }) ∨
       (onlineMethod req = false ∧ ord = baseOrder req nid ois ip ∧ pd = none)) := by
  unfold createOrder at h
  by_cases hmiss : (!(truthyStr req.shippingAddress && truthyStr req.paymentMethod)) = true
  · rw [if_pos hmiss] at h
    simp at h
  · rw [if_neg hmiss] at h
    cases hcart : findCart st req.userId with
    | none => rw [hcart] at h; simp at h
    | some items =>
      rw [hcart] at h
      dsimp only at h
      by_cases hne : items.isEmpty = true
      · rw [if_pos hne] at h
        simp at h
      · rw [if_neg hne] at h
        cases hitems : processItems st items with
        | error e => rw [hitems] at h; simp at h
        | ok trip =>
          obtain ⟨ois, ip, ws⟩ := trip
          rw [hitems] at h
          dsimp only at h
          by_cases hon : onlineMethod req = true
          · rw [if_pos hon] at h
            by_cases hpaise : jsRound ((ip + jsOrZero req.taxPriceInput
                + jsOrZero req.shippingPriceInput) * 100) ≤ 0
            · rw [if_pos hpaise] at h
              simp at h
            · rw [if_neg hpaise] at h
              cases hgw : gw with
              | none => rw [hgw] at h; simp at h
              | some gid =>
                rw [hgw] at h
                dsimp only at h
                by_cases hgid : (gid == "") = true
                · rw [if_pos hgid] at h
                  simp at h
                · rw [if_neg hgid] at h
                  rw [Prod.mk.injEq] at h
                  obtain ⟨h1, h2⟩ := h
                  injection h2 with hord hpd
                  exact ⟨items, ois, ip, ws, rfl, hitems,
                    Or.inl ⟨hon, gid, rfl, hord.symm⟩⟩
          · rw [if_neg hon] at h
            rw [Prod.mk.injEq] at h
            obtain ⟨h1, h2⟩ := h
            injection h2 with hord hpd
            exact ⟨items, ois, ip, ws, rfl, hitems,
              Or.inr ⟨by simpa using hon, hord.symm, hpd.symm⟩⟩

theorem createOrder_ok_fields {st : DBState} {req : CreateReq} {gw : Option String} {nid : Nat}
    {st' : DBState} {ord : Order} {pd : Option PayDetails}
    (h : createOrder st req gw nid = (st', CreateResp.ok ord pd)) :
    ∃ items ois ip ws,
      findCart st req.userId = some items ∧
      processItems st items = Except.ok (ois, ip, ws) ∧
      ord.itemsPrice = toFixed2 ip ∧
      ord.taxPrice = toFixed2 (jsOrZero req.taxPriceInput) ∧
      ord.shippingPrice = toFixed2 (jsOrZero req.shippingPriceInput) ∧
      ord.totalPrice = toFixed2 (ip + jsOrZero req.taxPriceInput + jsOrZero req.shippingPriceInput) ∧
      ord.orderStatus = (if jsToLower (req.paymentMethod.getD "") == "cod"
        then "Processing" else "Pending Payment") ∧
      ord.isPaid = false ∧
      (ord.razorpayOrderId.isSome = true → onlineMethod req = true) := by
  obtain ⟨items, ois, ip, ws, hcart, hitems, hcases⟩ := createOrder_ok_inv h
  refine ⟨items, ois, ip, ws, hcart, hitems, ?_⟩
  rcases hcases with ⟨hon, gid, hgw, rfl⟩ | ⟨hon, rfl, hpd⟩
  · exact ⟨rfl, rfl, rfl, rfl, rfl, rfl, fun _ => hon⟩
  · refine ⟨rfl, rfl, rfl, rfl, rfl, rfl, ?_⟩
    intro hcontra
    cases hcontra

/-! ### Two-decimal amounts -/

theorem centi_zero : Centi 0 := ⟨0, by norm_num⟩

theorem centi_add {a b : ℚ} (ha : Centi a) (hb : Centi b) : Centi (a + b) := by
  obtain ⟨m, rfl⟩ := ha
  obtain ⟨n, rfl⟩ := hb
  exact ⟨m + n, by push_cast; ring⟩

theorem centi_intMul {a : ℚ} (ha : Centi a) (k : ℤ) : Centi (a * (k : ℚ)) := by
  obtain ⟨m, rfl⟩ := ha
  exact ⟨m * k, by push_cast; ring⟩

theorem toFixed2_of_centi {a : ℚ} (ha : Centi a) : toFixed2 a = a := by
  obtain ⟨n, rfl⟩ := ha
  unfold toFixed2 jsRound
  have h1 : ((n : ℚ) / 100) * 100 = (n : ℚ) := by
    field_simp
  rw [h1]
  have h2 : ⌊(n : ℚ) + 1 / 2⌋ = n := by
    rw [add_comm, Int.floor_add_int]
    norm_num
  rw [h2]

theorem processItems_ip_centi {st : DBState} {items : List CartItem}
    {ois : List OrderItem} {ip : ℚ} {ws : List DBWrite}
    (hpr : ∀ pid p, findProduct st pid = some p → Centi p.price)
    (h : processItems st items = Except.ok (ois, ip, ws)) : Centi ip := by
  induction items generalizing ois ip ws with
  | nil =>
    simp [processItems] at h
    obtain ⟨h1, h2, h3⟩ := h
    rw [← h2]
    exact centi_zero
  | cons a rest ih =>
    cases hfp : findProduct st a.product with
    | none => simp [processItems, hfp] at h
    | some p =>
      cases hact : p.isActive with
      | false => simp [processItems, hfp, hact] at h
      | true =>
        by_cases hstock : p.stockQuantity < a.quantity
        · simp [processItems, hfp, hact, hstock] at h
        · cases hrest : processItems st rest with
          | error e => simp [processItems, hfp, hact, hstock, hrest] at h
          | ok trip =>
            obtain ⟨ois', ip', ws'⟩ := trip
            simp [processItems, hfp, hact, hstock, hrest] at h
            obtain ⟨h1, h2, h3⟩ := h
            rw [← h2]
            exact centi_add (centi_intMul (hpr _ _ hfp) a.quantity) (ih hrest)

/-- The money fields of an order, stored once at creation. -/
def priceFields (o : Order) : ℚ × ℚ × ℚ × ℚ :=
  (o.itemsPrice, o.taxPrice, o.shippingPrice, o.totalPrice)

theorem priceFields_applyStatusField (o : Order) (req : UpdateReq) (now : ℤ) :
    priceFields (applyStatusField o req now) = priceFields o := by
  unfold applyStatusField applyStatusPaid applyStatusDelivered
  cases req.orderStatus with
  | none => rfl
  | some ns =>
    dsimp only
    repeat' split
    all_goals rfl

theorem priceFields_applyIsPaidField (o : Order) (req : UpdateReq) (now : ℤ) :
    priceFields (applyIsPaidField o req now) = priceFields o := by
  unfold applyIsPaidField
  cases req.isPaid with
  | none => rfl
  | some p =>
    dsimp only
    repeat' split
    all_goals rfl

theorem priceFields_applyPaymentResultField (o : Order) (req : UpdateReq) (now : ℤ) :
    priceFields (applyPaymentResultField o req now) = priceFields o := by
  unfold applyPaymentResultField
  cases req.paymentResult with
  | none => rfl
  | some patch =>
    dsimp only
    repeat' split
    all_goals rfl

theorem priceFields_autoCorrect (o : Order) :
    priceFields (autoCorrect o) = priceFields o := by
  unfold autoCorrect
  split
  all_goals rfl

theorem id_applyStatusField (o : Order) (req : UpdateReq) (now : ℤ) :
    (applyStatusField o req now).id = o.id := by
  unfold applyStatusField applyStatusPaid applyStatusDelivered
  cases req.orderStatus with
  | none => rfl
  | some ns =>
    dsimp only
    repeat' split
    all_goals rfl

theorem id_applyIsPaidField (o : Order) (req : UpdateReq) (now : ℤ) :
    (applyIsPaidField o req now).id = o.id := by
  unfold applyIsPaidField
  cases req.isPaid with
  | none => rfl
  | some p =>
    dsimp only
    repeat' split
    all_goals rfl

theorem id_applyPaymentResultField (o : Order) (req : UpdateReq) (now : ℤ) :
    (applyPaymentResultField o req now).id = o.id := by
  unfold applyPaymentResultField
  cases req.paymentResult with
  | none => rfl
  | some patch =>
    dsimp only
    repeat' split
    all_goals rfl

theorem id_autoCorrect (o : Order) : (autoCorrect o).id = o.id := by
  unfold autoCorrect
  split
  all_goals rfl

theorem mutateOrder_id (o : Order) (req : UpdateReq) (now : ℤ) :
    (mutateOrder o req now).id = o.id := by
  unfold mutateOrder
  rw [id_autoCorrect, id_applyPaymentResultField, id_applyIsPaidField, id_applyStatusField]

theorem priceFields_mutateOrder (o : Order) (req : UpdateReq) (now : ℤ) :
    priceFields (mutateOrder o req now) = priceFields o := by
  unfold mutateOrder
  rw [priceFields_autoCorrect, priceFields_applyPaymentResultField,
    priceFields_applyIsPaidField, priceFields_applyStatusField]

theorem map_replaceById_of_same {l : List Order} {o o' : Order}
    {f : Order → ℚ × ℚ × ℚ × ℚ}
    (hnd : (l.map (·.id)).Nodup) (hmem : o ∈ l) (hid : o'.id = o.id) (hf : f o' = f o) :
    (replaceById l o').map f = l.map f := by
  induction l with
  | nil => rfl
  | cons x xs ih =>
    rw [List.map_cons, List.nodup_cons] at hnd
    unfold replaceById
    by_cases hx : (x.id == o'.id) = true
    · rw [if_pos hx]
      have hxid : x.id = o.id := by
        have := (by simpa using hx : x.id = o'.id)
        rw [this, hid]
      have hxo : x = o := by
        rcases List.mem_cons.mp hmem with rfl | hmem'
        · rfl
        · exact absurd (hxid ▸ List.mem_map_of_mem (·.id) hmem') hnd.1
      rw [List.map_cons, List.map_cons, hf, hxo]
    · rw [if_neg hx]
      have hmem' : o ∈ xs := by
        rcases List.mem_cons.mp hmem with rfl | hmem'
        · exact absurd (by simp [hid]) hx
        · exact hmem'
      rw [List.map_cons, List.map_cons, ih hnd.2 hmem']

theorem priceFields_verifyWebhook (st : DBState) (sc : Bool) (req : WebhookReq) (now : ℤ)
    (hwf : ordersWF st) :
    (verifyRazorpayWebhook st sc req now).1.orders.map priceFields
      = st.orders.map priceFields := by
  unfold verifyRazorpayWebhook
  split
  · rfl
  split
  · rfl
  split
  · cases hfind : findByRzpOrderId st req.orderEntityId with
    | none => rfl
    | some o =>
      dsimp only
      split
      · rfl
      · show (replaceById st.orders (webhookPaidOrder o req.paymentEntity now)).map priceFields
            = st.orders.map priceFields
        exact map_replaceById_of_same hwf (List.mem_of_find?_eq_some hfind) rfl rfl
  · rfl

theorem priceFields_updateOrderStatus (st : DBState) (oid : Nat) (req : UpdateReq) (now : ℤ)
    (hwf : ordersWF st) :
    (updateOrderStatus st oid req now).1.orders.map priceFields
      = st.orders.map priceFields := by
  unfold updateOrderStatus
  cases hfo : findOrder st oid with
  | none => rfl
  | some o0 =>
    dsimp only
    split
    · show (replaceById (applyWrites st (cancelRestores o0 req)).orders
          (mutateOrder o0 req now)).map priceFields = st.orders.map priceFields
      have horders : (applyWrites st (cancelRestores o0 req)).orders = st.orders :=
        orders_applyWrites_keeps cancelRestores_keep
      rw [horders]
      exact map_replaceById_of_same hwf (List.mem_of_find?_eq_some hfo)
        (mutateOrder_id o0 req now) (priceFields_mutateOrder o0 req now)
    · rfl

/-! ### C5: the stored total and its addends -/

/-- C5 (amended): for every successfully created order whose catalog prices
and tax/shipping overrides are exact two-decimal amounts, the stored
`totalPrice` equals the stored `itemsPrice + taxPrice + shippingPrice`
(without that assumption only `totalPrice = toFixed2(raw sum)` holds, and the
individually rounded addends can disagree with it — see the counterexample);
and the four money fields of every stored order are never recomputed by the
webhook reconciliation or the status transition. -/
theorem totalPrice_roundtrip :
    (∀ (st : DBState) (req : CreateReq) (gw : Option String) (nid : Nat)
        (st' : DBState) (ord : Order) (pd : Option PayDetails),
      createOrder st req gw nid = (st', CreateResp.ok ord pd) →
      (∀ pid p, findProduct st pid = some p → Centi p.price) →
      Centi (jsOrZero req.taxPriceInput) → Centi (jsOrZero req.shippingPriceInput) →
      ord.totalPrice = ord.itemsPrice + ord.taxPrice + ord.shippingPrice) ∧
    (∀ (st : DBState) (sc : Bool) (req : WebhookReq) (now : ℤ), ordersWF st →
      (verifyRazorpayWebhook st sc req now).1.orders.map priceFields
        = st.orders.map priceFields) ∧
    (∀ (st : DBState) (oid : Nat) (req : UpdateReq) (now : ℤ), ordersWF st →
      (updateOrderStatus st oid req now).1.orders.map priceFields
        = st.orders.map priceFields) := by
  refine ⟨?_, ?_, ?_⟩
  · intro st req gw nid st' ord pd h hpr htax hship
    obtain ⟨items, ois, ip, ws, hcart, hitems, hip, htax', hship', htot, -, -, -⟩ :=
      createOrder_ok_fields h
    have hipC : Centi ip := processItems_ip_centi hpr hitems
    rw [htot, hip, htax', hship', toFixed2_of_centi hipC, toFixed2_of_centi htax,
      toFixed2_of_centi hship, toFixed2_of_centi (centi_add (centi_add hipC htax) hship)]
  · intro st sc req now hwf
    exact priceFields_verifyWebhook st sc req now hwf
  · intro st oid req now hwf
    exact priceFields_updateOrderStatus st oid req now hwf

def cStateC5 : DBState :=
  { products := [(1, wProduct)], carts := [(7, [{ product := 1, quantity := 1 }])], orders := [] }

def cReqC5 : CreateReq :=
  { userId := 7, shippingAddress := some "addr", paymentMethod := some "COD",
    taxPriceInput := some (1/250), shippingPriceInput := some (1/250) }

def cOrdC5 : Order :=
  { id := 100, user := 7,
    items := [{ product := 1, name := "Widget", image := some "img", price := 10, quantity := 1 }],
    paymentMethod := "COD", paymentResult := emptyPaymentRec, razorpayOrderId := none,
    itemsPrice := 10, taxPrice := 0, shippingPrice := 0, totalPrice := 1001/100,
    orderStatus := "Processing", isPaid := false, paidAt := none, deliveredAt := none }

/-- C5 counterexample: with sub-cent overrides (`0.004` each) the order is
created with stored `totalPrice = 10.01` but stored
`itemsPrice + taxPrice + shippingPrice = 10.00`: the claimed round-trip
equality of the stored amounts fails. -/
theorem totalPrice_roundtrip_counterexample :
    (createOrder cStateC5 cReqC5 none 100).2 = CreateResp.ok cOrdC5 none ∧
    cOrdC5.totalPrice = 1001/100 ∧
    cOrdC5.itemsPrice + cOrdC5.taxPrice + cOrdC5.shippingPrice = 10 ∧
    ¬ cOrdC5.totalPrice = cOrdC5.itemsPrice + cOrdC5.taxPrice + cOrdC5.shippingPrice := by
  refine ⟨?_, by norm_num [cOrdC5], by norm_num [cOrdC5], by norm_num [cOrdC5]⟩
  have hlow : jsToLower "COD" = "cod" := by decide
  norm_num [createOrder, baseOrder, onlineMethod, truthyStr, findCart, processItems,
    findProduct, cStateC5, cReqC5, cOrdC5, hlow, toFixed2, jsRound, jsOrZero,
    emptyPaymentRec, wProduct]
  rw [if_neg (by decide), if_neg (by decide)]

def wOrdCOD : Order :=
  { id := 100, user := 7,
    items := [{ product := 1, name := "Widget", image := some "img", price := 10, quantity := 2 }],
    paymentMethod := "COD", paymentResult := emptyPaymentRec, razorpayOrderId := none,
    itemsPrice := 20, taxPrice := 0, shippingPrice := 0, totalPrice := 20,
    orderStatus := "Processing", isPaid := false, paidAt := none, deliveredAt := none }

def wStateAfterCOD : DBState :=
  { products := [(1, { wProduct with stockQuantity := 3 })], carts := [], orders := [wOrdCOD] }

theorem createOrder_cod_eval :
    createOrder wStateOk wReqCOD none 100 = (wStateAfterCOD, CreateResp.ok wOrdCOD none) := by
  have hlow : jsToLower "COD" = "cod" := by decide
  norm_num [createOrder, baseOrder, onlineMethod, truthyStr, findCart, processItems,
    findProduct, wStateOk, wReqCOD, wOrdCOD, wStateAfterCOD, hlow, toFixed2, jsRound,
    jsOrZero, emptyPaymentRec, wProduct, applyWrites, applyWrite]
  rw [if_neg (by decide), if_neg (by decide)]

theorem wStateOk_prices_centi :
    ∀ pid p, findProduct wStateOk pid = some p → Centi p.price := by
  intro pid p hp
  unfold findProduct wStateOk at hp
  dsimp only at hp
  simp only [List.find?] at hp
  cases h : ((1 : Nat) == pid) with
  | true =>
    rw [h] at hp
    simp at hp
    rw [← hp]
    exact ⟨1000, by norm_num [wProduct]⟩
  | false =>
    rw [h] at hp
    simp at hp

theorem totalPrice_roundtrip_witness :
    wOrdCOD.totalPrice = wOrdCOD.itemsPrice + wOrdCOD.taxPrice + wOrdCOD.shippingPrice ∧
    (verifyRazorpayWebhook wStateUnpaid true wWebhookReq 5).1.orders.map priceFields
      = wStateUnpaid.orders.map priceFields ∧
    (updateOrderStatus wStatePaid 1 wUpdateReqShip 5).1.orders.map priceFields
      = wStatePaid.orders.map priceFields :=
  ⟨totalPrice_roundtrip.1 wStateOk wReqCOD none 100 wStateAfterCOD wOrdCOD none
      createOrder_cod_eval wStateOk_prices_centi centi_zero centi_zero,
   totalPrice_roundtrip.2.1 wStateUnpaid true wWebhookReq 5 (by decide),
   totalPrice_roundtrip.2.2 wStatePaid 1 wUpdateReqShip 5 (by decide)⟩

/-! ### C7: initial status versus payment method -/

def cReqUpi : CreateReq :=
  { userId := 7, shippingAddress := some "addr", paymentMethod := some "UPI",
    taxPriceInput := none, shippingPriceInput := none }

def cOrdUpi : Order :=
  { id := 100, user := 7,
    items := [{ product := 1, name := "Widget", image := some "img", price := 10, quantity := 2 }],
    paymentMethod := "UPI", paymentResult := emptyPaymentRec, razorpayOrderId := none,
    itemsPrice := 20, taxPrice := 0, shippingPrice := 0, totalPrice := 20,
    orderStatus := "Pending Payment", isPaid := false, paidAt := none, deliveredAt := none }

/-- C7 counterexample: a request whose payment method is `"UPI"` (not
cash-on-delivery and not one of the gateway-routed methods) successfully
creates an order whose status is `Pending Payment` although no gateway order
was opened (`razorpayOrderId = none`), refuting "`Pending Payment` is
assigned only to orders for which a gateway order was actually opened". -/
theorem pending_payment_without_gateway :
    (createOrder wStateOk cReqUpi none 100).2 = CreateResp.ok cOrdUpi none ∧
    cOrdUpi.orderStatus = "Pending Payment" ∧
    cOrdUpi.razorpayOrderId = none := by
  refine ⟨?_, rfl, rfl⟩
  have hlow : jsToLower "UPI" = "upi" := by decide
  norm_num [createOrder, baseOrder, onlineMethod, truthyStr, findCart, processItems,
    findProduct, wStateOk, cReqUpi, cOrdUpi, hlow, toFixed2, jsRound, jsOrZero,
    emptyPaymentRec, wProduct]
  rw [if_neg (by decide), if_neg (by decide), if_neg (by decide)]

/-- C7 (amended): a cash-on-delivery order is created with status
`Processing`, no gateway order id and no gateway payment details; every
non-COD order is created with status `Pending Payment`; a gateway order id is
recorded only for the gateway-routed methods (`razorpay`/`online`), so other
non-COD methods yield `Pending Payment` without any gateway order; and for
non-gateway methods the result does not depend on the gateway at all (no
gateway call). -/
theorem offline_status_assignment :
    (∀ (st : DBState) (req : CreateReq) (gw : Option String) (nid : Nat)
        (st' : DBState) (ord : Order) (pd : Option PayDetails),
      createOrder st req gw nid = (st', CreateResp.ok ord pd) →
      ((jsToLower (req.paymentMethod.getD "") == "cod") = true →
        ord.orderStatus = "Processing" ∧ ord.razorpayOrderId = none ∧ pd = none) ∧
      ((jsToLower (req.paymentMethod.getD "") == "cod") = false →
        ord.orderStatus = "Pending Payment") ∧
      (ord.razorpayOrderId.isSome = true → onlineMethod req = true)) ∧
    (∀ (st : DBState) (req : CreateReq) (gw gw2 : Option String) (nid : Nat),
      onlineMethod req = false →
      createOrder st req gw nid = createOrder st req gw2 nid) := by
  constructor
  · intro st req gw nid st' ord pd h
    have hcodon : (jsToLower (req.paymentMethod.getD "") == "cod") = true →
        onlineMethod req = false := by
      intro hcod
      have heq : jsToLower (req.paymentMethod.getD "") = "cod" := by simpa using hcod
      unfold onlineMethod
      rw [heq]
      decide
    obtain ⟨items, ois, ip, ws, hcart, hitems, hcases⟩ := createOrder_ok_inv h
    refine ⟨?_, ?_, ?_⟩
    · intro hcod
      rcases hcases with ⟨hon, gid, hgw, rfl⟩ | ⟨hon, rfl, hpd⟩
      · rw [hcodon hcod] at hon
        cases hon
      · refine ⟨?_, rfl, hpd⟩
        show (if jsToLower (req.paymentMethod.getD "") == "cod"
          then "Processing" else "Pending Payment") = "Processing"
        rw [hcod]
        rfl
    · intro hcod
      rcases hcases with ⟨hon, gid, hgw, rfl⟩ | ⟨hon, rfl, hpd⟩ <;>
        · show (if jsToLower (req.paymentMethod.getD "") == "cod"
            then "Processing" else "Pending Payment") = "Pending Payment"
          rw [hcod]
          rfl
    · intro hsome
      rcases hcases with ⟨hon, gid, hgw, rfl⟩ | ⟨hon, rfl, hpd⟩
      · exact hon
      · cases hsome
  · intro st req gw gw2 nid hon
    unfold createOrder
    rw [hon]
    simp

theorem offline_status_assignment_witness :
    (wOrdCOD.orderStatus = "Processing" ∧ wOrdCOD.razorpayOrderId = none ∧
      (none : Option PayDetails) = none) ∧
    createOrder wStateOk cReqUpi none 100 = createOrder wStateOk cReqUpi (some "gw_9") 100 :=
  ⟨(offline_status_assignment.1 wStateOk wReqCOD none 100 wStateAfterCOD wOrdCOD none
      createOrder_cod_eval).1 (by decide),
   offline_status_assignment.2 wStateOk cReqUpi none (some "gw_9") 100 (by decide)⟩

/-! ### C10: tax/shipping override handling -/

/-- C10: an absent or non-numeric tax or shipping override behaves exactly as
an explicit `0` (silently coerced, no error of any kind raised for it), while
a negative numeric override is accepted: it becomes the stored
`taxPrice`/`shippingPrice` and flows into the computation of the stored
`totalPrice`. -/
theorem tax_shipping_override_coercion :
    (∀ (st : DBState) (req : CreateReq) (gw : Option String) (nid : Nat),
      createOrder st { req with taxPriceInput := none } gw nid
        = createOrder st { req with taxPriceInput := some 0 } gw nid) ∧
    (∀ (st : DBState) (req : CreateReq) (gw : Option String) (nid : Nat),
      createOrder st { req with shippingPriceInput := none } gw nid
        = createOrder st { req with shippingPriceInput := some 0 } gw nid) ∧
    (∀ (st : DBState) (req : CreateReq) (gw : Option String) (nid : Nat)
        (st' : DBState) (ord : Order) (pd : Option PayDetails) (q : ℚ),
      q < 0 → Centi q → req.taxPriceInput = some q →
      createOrder st req gw nid = (st', CreateResp.ok ord pd) →
      ord.taxPrice = q ∧
      ∃ items ois ip ws, findCart st req.userId = some items ∧
        processItems st items = Except.ok (ois, ip, ws) ∧
        ord.totalPrice = toFixed2 (ip + q + jsOrZero req.shippingPriceInput)) ∧
    (∀ (st : DBState) (req : CreateReq) (gw : Option String) (nid : Nat)
        (st' : DBState) (ord : Order) (pd : Option PayDetails) (q : ℚ),
      q < 0 → Centi q → req.shippingPriceInput = some q →
      createOrder st req gw nid = (st', CreateResp.ok ord pd) →
      ord.shippingPrice = q ∧
      ∃ items ois ip ws, findCart st req.userId = some items ∧
        processItems st items = Except.ok (ois, ip, ws) ∧
        ord.totalPrice = toFixed2 (ip + jsOrZero req.taxPriceInput + q)) := by
  refine ⟨fun st req gw nid => rfl, fun st req gw nid => rfl, ?_, ?_⟩
  · intro st req gw nid st' ord pd q hneg hc htax h
    obtain ⟨items, ois, ip, ws, hcart, hitems, hip, htax', hship', htot, -, -, -⟩ :=
      createOrder_ok_fields h
    refine ⟨?_, items, ois, ip, ws, hcart, hitems, ?_⟩
    · rw [htax', htax]
      exact toFixed2_of_centi hc
    · rw [htot, htax]
      rfl
  · intro st req gw nid st' ord pd q hneg hc hship h
    obtain ⟨items, ois, ip, ws, hcart, hitems, hip, htax', hship', htot, -, -, -⟩ :=
      createOrder_ok_fields h
    refine ⟨?_, items, ois, ip, ws, hcart, hitems, ?_⟩
    · rw [hship', hship]
      exact toFixed2_of_centi hc
    · rw [htot, hship]
      rfl

def wReqNegTax : CreateReq :=
  { userId := 7, shippingAddress := some "addr", paymentMethod := some "COD",
    taxPriceInput := some (-5), shippingPriceInput := some 2 }

def wOrdNegTax : Order :=
  { id := 100, user := 7,
    items := [{ product := 1, name := "Widget", image := some "img", price := 10, quantity := 2 }],
    paymentMethod := "COD", paymentResult := emptyPaymentRec, razorpayOrderId := none,
    itemsPrice := 20, taxPrice := -5, shippingPrice := 2, totalPrice := 17,
    orderStatus := "Processing", isPaid := false, paidAt := none, deliveredAt := none }

def wStateAfterNegTax : DBState :=
  { products := [(1, { wProduct with stockQuantity := 3 })], carts := [], orders := [wOrdNegTax] }

theorem createOrder_negtax_eval :
    createOrder wStateOk wReqNegTax none 100 = (wStateAfterNegTax, CreateResp.ok wOrdNegTax none) := by
  have hlow : jsToLower "COD" = "cod" := by decide
  norm_num [createOrder, baseOrder, onlineMethod, truthyStr, findCart, processItems,
    findProduct, wStateOk, wReqNegTax, wOrdNegTax, wStateAfterNegTax, hlow, toFixed2, jsRound,
    jsOrZero, emptyPaymentRec, wProduct, applyWrites, applyWrite]
  rw [if_neg (by decide), if_neg (by decide)]

def wReqNegShip : CreateReq :=
  { userId := 7, shippingAddress := some "addr", paymentMethod := some "COD",
    taxPriceInput := some 2, shippingPriceInput := some (-5) }

def wOrdNegShip : Order :=
  { id := 100, user := 7,
    items := [{ product := 1, name := "Widget", image := some "img", price := 10, quantity := 2 }],
    paymentMethod := "COD", paymentResult := emptyPaymentRec, razorpayOrderId := none,
    itemsPrice := 20, taxPrice := 2, shippingPrice := -5, totalPrice := 17,
    orderStatus := "Processing", isPaid := false, paidAt := none, deliveredAt := none }

def wStateAfterNegShip : DBState :=
  { products := [(1, { wProduct with stockQuantity := 3 })], carts := [], orders := [wOrdNegShip] }

theorem createOrder_negship_eval :
    createOrder wStateOk wReqNegShip none 100 = (wStateAfterNegShip, CreateResp.ok wOrdNegShip none) := by
  have hlow : jsToLower "COD" = "cod" := by decide
  norm_num [createOrder, baseOrder, onlineMethod, truthyStr, findCart, processItems,
    findProduct, wStateOk, wReqNegShip, wOrdNegShip, wStateAfterNegShip, hlow, toFixed2, jsRound,
    jsOrZero, emptyPaymentRec, wProduct, applyWrites, applyWrite]
  rw [if_neg (by decide), if_neg (by decide)]

theorem tax_shipping_override_coercion_witness :
    createOrder wStateOk { wReqCOD with taxPriceInput := none } none 100
      = createOrder wStateOk { wReqCOD with taxPriceInput := some 0 } none 100 ∧
    createOrder wStateOk { wReqCOD with shippingPriceInput := none } none 100
      = createOrder wStateOk { wReqCOD with shippingPriceInput := some 0 } none 100 ∧
    (wOrdNegTax.taxPrice = -5 ∧
      ∃ items ois ip ws, findCart wStateOk wReqNegTax.userId = some items ∧
        processItems wStateOk items = Except.ok (ois, ip, ws) ∧
        wOrdNegTax.totalPrice = toFixed2 (ip + (-5) + jsOrZero wReqNegTax.shippingPriceInput)) ∧
    (wOrdNegShip.shippingPrice = -5 ∧
      ∃ items ois ip ws, findCart wStateOk wReqNegShip.userId = some items ∧
        processItems wStateOk items = Except.ok (ois, ip, ws) ∧
        wOrdNegShip.totalPrice = toFixed2 (ip + jsOrZero wReqNegShip.taxPriceInput + (-5))) :=
  ⟨tax_shipping_override_coercion.1 wStateOk wReqCOD none 100,
   tax_shipping_override_coercion.2.1 wStateOk wReqCOD none 100,
   tax_shipping_override_coercion.2.2.1 wStateOk wReqNegTax none 100 wStateAfterNegTax
     wOrdNegTax none (-5) (by decide) ⟨-500, by norm_num⟩ rfl createOrder_negtax_eval,
   tax_shipping_override_coercion.2.2.2 wStateOk wReqNegShip none 100 wStateAfterNegShip
     wOrdNegShip none (-5) (by decide) ⟨-500, by norm_num⟩ rfl createOrder_negship_eval⟩
